import Mathlib

/-
Verification of docs/create-gif.py: a one-shot script that renders two
simulated token-usage trajectories into an animated GIF.

Modelling conventions:
* Python ints are `Int`.
* Python float expressions `int(tokens * 0.85)`, `int(tokens * 0.75)`,
  `int(tokens * 0.60)` and `int((tokens / max_tokens) * bar_width)` are
  modelled by exact integer arithmetic with truncation toward zero
  (`Int.tdiv`), i.e. `(tokens * 85).tdiv 100` etc.  On every token value
  this program ever computes, the IEEE-754 double computation and the
  exact computation agree, so the model is faithful to the run.
* A rendered frame is modelled as the record of all drawing parameters the
  script passes to Pillow (canvas size, colours, texts, bar geometry); the
  raster image is a pure function of this record, so equality of records
  models pixel identity.
* Font loading (`ImageFont.truetype` with `except` fallback) is modelled by
  a boolean `fontAvailable` input.
-/

/-- The drawing parameters of one frame produced by `create_frame` in
docs/create-gif.py: canvas, title, texts, status colouring, and the
progress-bar geometry.  The actual raster image is a pure function of
these fields. -/
structure FrameImage where
  width : Nat
  height : Nat
  bgColor : String
  usesDefaultFont : Bool
  title : String
  titleColor : String
  step : Nat
  tokens : Int
  strategy : Option String
  statusLabel : String
  statusColor : String
  barX : Int
  barY : Int
  barWidth : Int
  barHeight : Int
  fillWidth : Int
  fillColor : String
  fillDrawn : Bool
  limitX : Int
deriving DecidableEq

/-- Embedding of `create_frame(step, tokens, strategy, status, is_with_cm)`
from docs/create-gif.py, lines 15-74, parametrised additionally by whether
the preferred monospace font loads (the `try`/`except` at lines 22-27). -/
def create_frame (step : Nat) (tokens : Int) (strategy : Option String)
    (status : String) (is_with_cm : Bool) (fontAvailable : Bool) : FrameImage :=
  let title := if is_with_cm then "✅ WITH Context Management"
               else "❌ WITHOUT Context Management"
  let title_color := if is_with_cm then "#4ec9b0" else "#f48771"
  let status_color := if status = "OK" then "#4ec9b0"
                      else if status = "FAILED" then "#f48771" else "#dcdcaa"
  let bar_width : Int := 1100
  let bar_x : Int := 20
  let bar_y : Int := 150
  let max_tokens : Int := 100000
  let fill_width := min ((tokens * bar_width).tdiv max_tokens) bar_width
  let fill_color := if tokens > 80000 then "#f48771"
                    else if tokens > 50000 then "#dcdcaa" else "#4ec9b0"
  let limit_x := bar_x + (80000 * bar_width).tdiv max_tokens
  { width := 1200
    height := 200
    bgColor := "#1e1e1e"
    usesDefaultFont := !fontAvailable
    title := title
    titleColor := title_color
    step := step
    tokens := tokens
    strategy := strategy
    statusLabel := status
    statusColor := status_color
    barX := bar_x
    barY := bar_y
    barWidth := bar_width
    barHeight := 30
    fillWidth := fill_width
    fillColor := fill_color
    fillDrawn := decide (fill_width > 0)
    limitX := limit_x }

/-- The status classification applied identically at lines 85 and 109 of
docs/create-gif.py:
`"FAILED" if tokens > 100000 else "WARNING" if tokens > 80000 else "OK"`. -/
def statusOf (tokens : Int) : String :=
  if tokens > 100000 then "FAILED" else if tokens > 80000 then "WARNING" else "OK"

/-- The "Without CM" loop of `main` (lines 81-88): `fuel` iterations remain,
the current iteration uses step index `step` and the running token count
`tokens`; each step adds `1500 + step * 100`, renders a frame, and breaks
out of the loop if the new count exceeds 100000. -/
def withoutLoop : Nat → Nat → Int → Bool → List FrameImage
  | 0, _, _, _ => []
  | fuel + 1, step, tokens, fontAvailable =>
    let t := tokens + (1500 + (step : Int) * 100)
    let fr := create_frame step t none (statusOf t) false fontAvailable
    if t > 100000 then [fr] else fr :: withoutLoop fuel (step + 1) t fontAvailable

/-- The frames of the "Without CM" trajectory: `tokens = 1000`, steps 1..20. -/
def withoutFrames (fontAvailable : Bool) : List FrameImage :=
  withoutLoop 20 1 1000 fontAvailable

/-- The `if`/`elif` reduction chain of the "With CM" loop (lines 95-107),
applied to the token count after the step increment.  Returns the new token
count and the strategy label, `none` when no rule fires. -/
def cmReduce (tokens : Int) (step : Nat) : Int × Option String :=
  if tokens > 60000 ∧ step ≥ 5 then ((tokens * 85).tdiv 100, some "💾 OFFLOAD")
  else if tokens > 50000 ∧ step % 5 = 0 then ((tokens * 75).tdiv 100, some "📝 SUMMARIZE")
  else if tokens > 40000 ∧ step ≥ 3 then ((tokens * 60).tdiv 100, some "📦 COMPACT")
  else if tokens > 30000 then ((tokens * 75).tdiv 100, some "🔍 FILTER")
  else (tokens, none)

/-- The "With CM" loop of `main` (lines 91-110): each step adds
`1500 + step * 100`, applies the reduction chain, and renders a frame; the
loop always runs all its iterations (no break). -/
def withLoop : Nat → Nat → Int → Bool → List FrameImage
  | 0, _, _, _ => []
  | fuel + 1, step, tokens, fontAvailable =>
    let t := tokens + (1500 + (step : Int) * 100)
    let r := cmReduce t step
    let fr := create_frame step r.1 r.2 (statusOf r.1) true fontAvailable
    fr :: withLoop fuel (step + 1) r.1 fontAvailable

/-- The frames of the "With CM" trajectory: `tokens = 1000`, steps 1..20. -/
def withFrames (fontAvailable : Bool) : List FrameImage :=
  withLoop 20 1 1000 fontAvailable

/-- The full `frames` list of `main`: the without-CM frames are appended
first (lines 82-88), then the with-CM frames (lines 92-110). -/
def framesAll (fontAvailable : Bool) : List FrameImage :=
  withoutFrames fontAvailable ++ withFrames fontAvailable

/-- The saved GIF: frame sequence, per-frame duration in ms, loop flag,
and output path. -/
structure GifFile where
  gifFrames : List FrameImage
  duration : Nat
  loopFlag : Nat
  path : String
deriving DecidableEq

/-- The output path of line 113:
`os.path.join(os.path.dirname(__file__), 'context-problem-demo.gif')`. -/
def output_path (scriptDir : String) : String :=
  scriptDir ++ "/context-problem-demo.gif"

/-- The `frames[0].save(..., append_images=frames[1:], duration=300, loop=0)`
call of lines 114-120: serializes the first frame followed by all remaining
frames (i.e. the whole list, in order), with 300 ms per frame and
infinite-loop flag 0.  `none` models the `IndexError` an empty list would
raise; in this program the list is never empty. -/
def saveGif (frames : List FrameImage) (scriptDir : String) : Option GifFile :=
  match frames with
  | [] => none
  | f :: rest =>
    some { gifFrames := f :: rest
           duration := 300
           loopFlag := 0
           path := output_path scriptDir }

/-- The outcome of the import guard at lines 7-13. -/
structure StartupFailure where
  messages : List String
  exitCode : Nat
deriving DecidableEq

/-- Embedding of the `try: from PIL import ... except ImportError` guard at
lines 7-13 of docs/create-gif.py: when Pillow is unavailable the script
prints two lines (naming the missing dependency and the HTML alternative)
and exits with status 1; otherwise no error path is taken. -/
def importGuard (pillowAvailable : Bool) : Option StartupFailure :=
  if pillowAvailable then none
  else some { messages := ["❌ Pillow not installed. Install with: pip install Pillow",
                          "   Or use the HTML file: open docs/create-gif.html"]
              exitCode := 1 }

/-- A reduction rule of the mitigated trajectory, as the spec describes it:
a guard on (incremented) token count and step index, a reduction, a label. -/
structure ReductionRule where
  cond : Int → Nat → Bool
  act : Int → Int
  label : String

/-- Modelled from the spec: the four reduction rules in their documented
priority order (OFFLOAD, SUMMARIZE, COMPACT, FILTER). -/
def specRules : List ReductionRule :=
  [ { cond := fun t s => decide (t > 60000 ∧ s ≥ 5)
      act := fun t => (t * 85).tdiv 100
      label := "💾 OFFLOAD" }
  , { cond := fun t s => decide (t > 50000 ∧ s % 5 = 0)
      act := fun t => (t * 75).tdiv 100
      label := "📝 SUMMARIZE" }
  , { cond := fun t s => decide (t > 40000 ∧ s ≥ 3)
      act := fun t => (t * 60).tdiv 100
      label := "📦 COMPACT" }
  , { cond := fun t _ => decide (t > 30000)
      act := fun t => (t * 75).tdiv 100
      label := "🔍 FILTER" } ]

/-- Apply the first rule whose condition holds; if none holds, leave the
token count unchanged and attach no label.  At most one rule ever acts. -/
def applyFirst : List ReductionRule → Int → Nat → Int × Option String
  | [], t, _ => (t, none)
  | r :: rs, t, s => if r.cond t s then (r.act t, some r.label) else applyFirst rs t s

/-- Helper: `withLoop` always runs all remaining iterations, whatever the
token count: it contains no break. -/
theorem withLoop_length (fuel step : Nat) (tokens : Int) (f : Bool) :
    (withLoop fuel step tokens f).length = fuel := by
  induction fuel generalizing step tokens with
  | zero => rfl
  | succ n ih => simp [withLoop, ih]

/-- Helper: a member of `(a :: l).dropLast` is `a` or a member of
`l.dropLast`. -/
theorem mem_dropLast_cons {α : Type} {a fr : α} {l : List α}
    (h : fr ∈ (a :: l).dropLast) : fr = a ∨ fr ∈ l.dropLast := by
  cases l with
  | nil => simp at h
  | cons b bs =>
    rw [List.dropLast_cons₂, List.mem_cons] at h
    rcases h with h | h
    · exact Or.inl h
    · exact Or.inr h

/-- Helper: non-final frames of the without-CM loop never exceed 100000
tokens (the loop breaks as soon as the count exceeds the threshold). -/
theorem withoutLoop_dropLast_le :
    ∀ (fuel step : Nat) (tokens : Int) (f : Bool),
      ∀ fr ∈ (withoutLoop fuel step tokens f).dropLast, fr.tokens ≤ 100000 := by
  intro fuel
  induction fuel with
  | zero => intro step tokens f fr h; simp [withoutLoop] at h
  | succ n ih =>
    intro step tokens f fr h
    simp only [withoutLoop] at h
    by_cases hc : tokens + (1500 + (step : Int) * 100) > 100000
    · rw [if_pos hc] at h
      simp at h
    · rw [if_neg hc] at h
      rcases mem_dropLast_cons h with h1 | h2
      · subst h1
        simpa [create_frame] using le_of_not_lt hc
      · exact ih (step + 1) _ f fr h2

/-- C1: the mitigated ("With CM") trajectory renders exactly 20 frames, one
per step 1..20, and the loop body runs all its iterations regardless of the
token count; the reduction chain applied after the step increment equals
applying the first matching rule of the documented priority list (OFFLOAD,
SUMMARIZE, COMPACT, FILTER), so at most one reduction fires per step. -/
theorem mitigated_twenty_steps_priority_rules (fontAvailable : Bool) :
    (withFrames fontAvailable).length = 20 ∧
    (∀ (fuel step : Nat) (tokens : Int),
       (withLoop fuel step tokens fontAvailable).length = fuel) ∧
    (∀ (tokens : Int) (step : Nat),
       cmReduce tokens step = applyFirst specRules tokens step) := by
  refine ⟨withLoop_length 20 1 1000 fontAvailable, ?_, ?_⟩
  · intro fuel step tokens
    exact withLoop_length fuel step tokens fontAvailable
  · intro t s
    simp only [cmReduce, applyFirst, specRules, decide_eq_true_eq]

/-- C2: the unbounded ("Without CM") loop starts from 1000 tokens and adds
`1500 + 100 * step` at step `step` (third conjunct: the frame rendered by
the next iteration carries exactly the incremented count); every frame
except possibly the last has at most 100000 tokens, i.e. the loop breaks at
the first step whose cumulative count exceeds 100000 (first conjunct); and
the loop never runs more iterations than its fixed bound (second
conjunct). -/
theorem unbounded_terminates_on_overflow :
    (∀ (fuel step : Nat) (tokens : Int) (f : Bool),
       ∀ fr ∈ (withoutLoop fuel step tokens f).dropLast, fr.tokens ≤ 100000) ∧
    (∀ (fuel step : Nat) (tokens : Int) (f : Bool),
       (withoutLoop fuel step tokens f).length ≤ fuel) ∧
    (∀ (fuel step : Nat) (tokens : Int) (f : Bool),
       ((withoutLoop (fuel + 1) step tokens f).head?.map (fun fr => fr.tokens))
         = some (tokens + (1500 + (step : Int) * 100))) ∧
    withoutFrames = withoutLoop 20 1 1000 := by
  refine ⟨withoutLoop_dropLast_le, ?_, ?_, rfl⟩
  · intro fuel
    induction fuel with
    | zero => intro step tokens f; simp [withoutLoop]
    | succ n ih =>
      intro step tokens f
      simp only [withoutLoop]
      split
      · simp
      · simpa using ih (step + 1) _ f
  · intro fuel step tokens f
    simp only [withoutLoop]
    split <;> simp [create_frame]

/-- C2 witness: the first rendered frame (step 1, 2600 tokens) is a
non-final frame of the concrete run and indeed holds at most 100000
tokens. -/
theorem unbounded_terminates_on_overflow_witness :
    (create_frame 1 2600 none "OK" false true).tokens ≤ 100000 :=
  unbounded_terminates_on_overflow.1 20 1 1000 true
    (create_frame 1 2600 none "OK" false true) (by decide)

/-- C3: the status string is the pure three-way threshold function of the
token count (`FAILED` above 100000, `WARNING` in 80000 < q ≤ 100000, `OK`
at or below 80000), and every frame rendered by either loop carries exactly
the status of its own token count. -/
theorem status_pure_function :
    (∀ q : Int, (statusOf q = "FAILED" ↔ 100000 < q) ∧
       (statusOf q = "WARNING" ↔ 80000 < q ∧ q ≤ 100000) ∧
       (statusOf q = "OK" ↔ q ≤ 80000)) ∧
    (∀ (fuel step : Nat) (tokens : Int) (f : Bool),
       ∀ fr ∈ withoutLoop fuel step tokens f, fr.statusLabel = statusOf fr.tokens) ∧
    (∀ (fuel step : Nat) (tokens : Int) (f : Bool),
       ∀ fr ∈ withLoop fuel step tokens f, fr.statusLabel = statusOf fr.tokens) := by
  refine ⟨?_, ?_, ?_⟩
  · intro q
    unfold statusOf
    refine ⟨?_, ?_, ?_⟩ <;> split_ifs with h1 h2 <;> simp_all <;> omega
  · intro fuel
    induction fuel with
    | zero => intro step tokens f fr h; simp [withoutLoop] at h
    | succ n ih =>
      intro step tokens f fr h
      simp only [withoutLoop] at h
      split at h
      · simp at h
        subst h
        rfl
      · rw [List.mem_cons] at h
        rcases h with h | h
        · subst h
          rfl
        · exact ih (step + 1) _ f fr h
  · intro fuel
    induction fuel with
    | zero => intro step tokens f fr h; simp [withLoop] at h
    | succ n ih =>
      intro step tokens f fr h
      simp only [withLoop, List.mem_cons] at h
      rcases h with h | h
      · subst h
        rfl
      · exact ih (step + 1) _ f fr h

/-- C3 witness: the first frame of the mitigated run carries the status of
its own token count. -/
theorem status_pure_function_witness :
    (create_frame 1 2600 none "OK" true true).statusLabel
      = statusOf (create_frame 1 2600 none "OK" true true).tokens :=
  status_pure_function.2.2 20 1 1000 true
    (create_frame 1 2600 none "OK" true true) (by decide)

/-- C4: for any quantity handed to the frame renderer, the filled-bar width
is `min((tokens * bar_width) / max_tokens, bar_width)` with
`max_tokens = 100000` and `bar_width = 1100` (division truncating as the
code's `int(...)` does), hence never exceeds the bar's declared width; and
the fill colour follows the three-tier threshold: green at or below 50000,
yellow in 50000 < q ≤ 80000, red above 80000. -/
theorem fill_width_clamped_and_colored (step : Nat) (tokens : Int)
    (strategy : Option String) (status : String) (m f : Bool) :
    (create_frame step tokens strategy status m f).fillWidth
        = min ((tokens * 1100).tdiv 100000) 1100 ∧
    (create_frame step tokens strategy status m f).fillWidth
        ≤ (create_frame step tokens strategy status m f).barWidth ∧
    (tokens ≤ 50000 →
        (create_frame step tokens strategy status m f).fillColor = "#4ec9b0") ∧
    (50000 < tokens → tokens ≤ 80000 →
        (create_frame step tokens strategy status m f).fillColor = "#dcdcaa") ∧
    (80000 < tokens →
        (create_frame step tokens strategy status m f).fillColor = "#f48771") := by
  refine ⟨rfl, min_le_right _ _, ?_, ?_, ?_⟩
  · intro h
    simp only [create_frame]
    split_ifs with h1 h2
    · omega
    · omega
    · rfl
  · intro h1 h2
    simp only [create_frame]
    split_ifs with h3
    · omega
    · rfl
  · intro h
    simp only [create_frame]
    split_ifs <;> first | rfl | omega

/-- C4 witness: at 40000 tokens the fill colour is the low-tier green. -/
theorem fill_width_clamped_and_colored_witness :
    (create_frame 3 40000 none "OK" false true).fillColor = "#4ec9b0" :=
  (fill_width_clamped_and_colored 3 40000 none "OK" false true).2.2.1 (by decide)

/-- C5: the saved GIF holds exactly the concatenated frame list (nothing
added or dropped), and its frame count equals the without-CM frame count
plus 20. -/
theorem frame_count_without_plus_twenty (f : Bool) (dir : String) :
    ((saveGif (framesAll f) dir).map (fun g => g.gifFrames)) = some (framesAll f) ∧
    (framesAll f).length = (withoutFrames f).length + 20 := by
  cases f <;> exact ⟨rfl, rfl⟩

/-- C6: in the without-CM loop as coded, the frame at step s carries exactly
`1000 + 1500*s + 50*s*(s+1)` tokens, peaking at exactly 52000 and never
exceeding that; hence the break never fires (20 frames, 40 in total) and
every frame of both trajectories has status OK. -/
theorem without_trajectory_never_breaks (f : Bool) :
    (withoutFrames f).length = 20 ∧
    (framesAll f).length = 40 ∧
    (∀ fr ∈ withoutFrames f,
       fr.tokens = 1000 + 1500 * (fr.step : Int)
                     + 50 * (fr.step : Int) * ((fr.step : Int) + 1) ∧
       fr.tokens ≤ 52000 ∧ fr.statusLabel = "OK") ∧
    (∃ fr ∈ withoutFrames f, fr.tokens = 52000) ∧
    (∀ fr ∈ withFrames f, fr.statusLabel = "OK") := by
  cases f <;> decide

/-- C6 witness: the final without-CM frame (step 20) holds the peak 52000
tokens and has status OK. -/
theorem without_trajectory_never_breaks_witness :
    (create_frame 20 52000 none "OK" false true).statusLabel = "OK" :=
  ((without_trajectory_never_breaks true).2.2.1
    (create_frame 20 52000 none "OK" false true) (by decide)).2.2

/-- Helper: each reduction rule maps a non-negative token count to a
non-negative token count (truncated division of non-negatives). -/
theorem cmReduce_nonneg (t : Int) (s : Nat) (h : 0 ≤ t) : 0 ≤ (cmReduce t s).1 := by
  unfold cmReduce
  split_ifs
  · exact Int.tdiv_nonneg (mul_nonneg h (by norm_num)) (by norm_num)
  · exact Int.tdiv_nonneg (mul_nonneg h (by norm_num)) (by norm_num)
  · exact Int.tdiv_nonneg (mul_nonneg h (by norm_num)) (by norm_num)
  · exact Int.tdiv_nonneg (mul_nonneg h (by norm_num)) (by norm_num)
  · exact h

/-- Helper: starting from a non-negative count, every frame of the
without-CM loop carries a non-negative count. -/
theorem withoutLoop_nonneg :
    ∀ (fuel step : Nat) (tokens : Int) (f : Bool), 0 ≤ tokens →
      ∀ fr ∈ withoutLoop fuel step tokens f, 0 ≤ fr.tokens := by
  intro fuel
  induction fuel with
  | zero => intro step tokens f h fr hm; simp [withoutLoop] at hm
  | succ n ih =>
    intro step tokens f h fr hm
    have ht : 0 ≤ tokens + (1500 + (step : Int) * 100) := by omega
    simp only [withoutLoop] at hm
    split at hm
    · simp at hm
      subst hm
      exact ht
    · rw [List.mem_cons] at hm
      rcases hm with hm | hm
      · subst hm
        exact ht
      · exact ih (step + 1) _ f ht fr hm

/-- Helper: starting from a non-negative count, every frame of the with-CM
loop carries a non-negative count. -/
theorem withLoop_nonneg :
    ∀ (fuel step : Nat) (tokens : Int) (f : Bool), 0 ≤ tokens →
      ∀ fr ∈ withLoop fuel step tokens f, 0 ≤ fr.tokens := by
  intro fuel
  induction fuel with
  | zero => intro step tokens f h fr hm; simp [withLoop] at hm
  | succ n ih =>
    intro step tokens f h fr hm
    have ht : 0 ≤ tokens + (1500 + (step : Int) * 100) := by omega
    have hr : 0 ≤ (cmReduce (tokens + (1500 + (step : Int) * 100)) step).1 :=
      cmReduce_nonneg _ step ht
    simp only [withLoop, List.mem_cons] at hm
    rcases hm with hm | hm
    · subst hm
      exact hr
    · exact ih (step + 1) _ f hr fr hm

/-- C7: starting from a non-negative token count, every frame of either
loop carries a non-negative count, and every incremented pre-reduction
count as well as every post-reduction count stays non-negative. -/
theorem tokens_nonneg (fuel step : Nat) (tokens : Int) (f : Bool)
    (h : 0 ≤ tokens) :
    (∀ fr ∈ withoutLoop fuel step tokens f, 0 ≤ fr.tokens) ∧
    (∀ fr ∈ withLoop fuel step tokens f, 0 ≤ fr.tokens) ∧
    (0 ≤ tokens + (1500 + (step : Int) * 100)) ∧
    (∀ (t : Int) (s : Nat), 0 ≤ t → 0 ≤ (cmReduce t s).1) := by
  refine ⟨withoutLoop_nonneg fuel step tokens f h,
          withLoop_nonneg fuel step tokens f h, by omega, ?_⟩
  intro t s ht
  exact cmReduce_nonneg t s ht

/-- C7 witness: the concrete run starts at 1000 ≥ 0 and its second frame
(step 2, 4300 tokens) indeed carries a non-negative count. -/
theorem tokens_nonneg_witness :
    0 ≤ (create_frame 2 4300 none "OK" false true).tokens :=
  (tokens_nonneg 20 1 1000 true (by decide)).1
    (create_frame 2 4300 none "OK" false true) (by decide)

/-- C8: saving serializes the without-CM frames first, then the with-CM
frames, each in generation order, with 300 ms per frame, infinite-loop
flag 0, and the fixed file name next to the script's directory. -/
theorem gif_order_duration_path (f : Bool) (dir : String) :
    saveGif (withoutFrames f ++ withFrames f) dir
      = some { gifFrames := withoutFrames f ++ withFrames f,
               duration := 300,
               loopFlag := 0,
               path := dir ++ "/context-problem-demo.gif" } := by
  cases f <;> rfl

/-- C9: the error path is taken exactly when Pillow is unavailable: with
the library present the guard reports nothing, and without it the script
prints the two lines naming the missing dependency and the HTML
alternative and exits with status 1 (hence non-zero). -/
theorem import_guard_iff :
    importGuard true = none ∧
    importGuard false
      = some { messages := ["❌ Pillow not installed. Install with: pip install Pillow",
                            "   Or use the HTML file: open docs/create-gif.html"],
               exitCode := 1 } ∧
    (∀ fl : StartupFailure, importGuard false = some fl → fl.exitCode ≠ 0) := by
  refine ⟨rfl, rfl, ?_⟩
  intro fl h
  injection h with h
  rw [← h]
  decide

/-- C9 witness: the failure record the guard produces has a non-zero exit
code. -/
theorem import_guard_iff_witness :
    ({ messages := ["❌ Pillow not installed. Install with: pip install Pillow",
                    "   Or use the HTML file: open docs/create-gif.html"],
       exitCode := 1 } : StartupFailure).exitCode ≠ 0 :=
  import_guard_iff.2.2 _ rfl

/-- C10: rendering is deterministic: two frames rendered from identical
inputs (step, token count, strategy, status, mode flag, font availability)
are equal records, hence pixel-identical images; and two whole-program runs
with the same font availability produce the same GIF. -/
theorem render_deterministic :
    (∀ (step : Nat) (tokens : Int) (strategy : Option String) (status : String)
       (m f : Bool) (img1 img2 : FrameImage),
       img1 = create_frame step tokens strategy status m f →
       img2 = create_frame step tokens strategy status m f → img1 = img2) ∧
    (∀ (f : Bool) (dir : String) (g1 g2 : Option GifFile),
       g1 = saveGif (framesAll f) dir → g2 = saveGif (framesAll f) dir → g1 = g2) := by
  constructor
  · intro step tokens strategy status m f img1 img2 h1 h2
    rw [h1, h2]
  · intro f dir g1 g2 h1 h2
    rw [h1, h2]

/-- C10 witness: two renders of the first frame's inputs agree. -/
theorem render_deterministic_witness :
    create_frame 1 2600 none "OK" false true = create_frame 1 2600 none "OK" false true :=
  render_deterministic.1 1 2600 none "OK" false true
    (create_frame 1 2600 none "OK" false true)
    (create_frame 1 2600 none "OK" false true) rfl rfl
